import Mathlib

/-!
Verification development for the crafty-client library
(`crafty_client/craftyweb.py`, `crafty_client/static/routes.py`).

The client is a thin adapter over an HTTP+JSON API: every public method
validates its arguments, builds a URL from fixed route templates plus an
optional JSON body, and delegates to one request primitive.  We embed the
argument values as a Python-like value type `Val`, each method as a function
returning `Except PyErr Request` (the request the method hands to
`_make_request`, i.e. the network call it is about to issue, or the local
error raised before any network call), and the response side
(`_check_errors` / `_make_request` envelope handling) as functions over a
four-field envelope record.
-/

set_option autoImplicit false

/-- Python-like values, as far as the library's argument handling needs:
`None`, `bool`, `int`, `str`, `float` (payload irrelevant to any claim, kept
as an opaque marker for a non-zero float), `list` and `dict` (string keys,
insertion ordered, unique keys as in Python). -/
inductive Val where
  | vnone : Val
  | vbool : Bool → Val
  | vint : Int → Val
  | vstr : String → Val
  | vfloat : Val
  | vlist : List Val → Val
  | vdict : List (String × Val) → Val

/-- `isinstance(v, (int, str))`.  Note that in Python `bool` is a subclass of
`int`, so booleans pass this check. -/
def isIntOrStr : Val → Bool
  | .vbool _ => true
  | .vint _ => true
  | .vstr _ => true
  | _ => false

/-- `isinstance(v, int)` (booleans included, as in Python). -/
def isInt : Val → Bool
  | .vbool _ => true
  | .vint _ => true
  | _ => false

/-- `isinstance(v, str)`. -/
def isStr : Val → Bool
  | .vstr _ => true
  | _ => false

/-- `isinstance(v, list)`. -/
def isList : Val → Bool
  | .vlist _ => true
  | _ => false

/-- Python `v is None`. -/
def isNone : Val → Bool
  | .vnone => true
  | _ => false

/-- Python `v == s` for a string literal `s`: true exactly when `v` is an
equal string (values of other types never compare equal to a `str`). -/
def strEq : Val → String → Bool
  | .vstr t, s => t == s
  | _, _ => false

/-- Python truthiness: `None`, `False`, `0`, empty string/list/dict are
falsy.  The `vfloat` marker stands for a non-zero float, hence truthy. -/
def pyTruthy : Val → Bool
  | .vnone => false
  | .vbool b => b
  | .vint n => n != 0
  | .vstr s => s != ""
  | .vfloat => true
  | .vlist l => !l.isEmpty
  | .vdict l => !l.isEmpty

mutual

/-- Python `repr`. String escaping inside quotes is not reproduced; no claim
evaluates `repr` on a string containing a quote. -/
def pyRepr : Val → String
  | .vnone => "None"
  | .vbool b => if b then "True" else "False"
  | .vint n => toString n
  | .vstr s => "\x27" ++ s ++ "\x27"
  | .vfloat => "<float>"
  | .vlist l => "[" ++ String.intercalate ", " (pyReprList l) ++ "]"
  | .vdict l => "\x7b" ++ String.intercalate ", " (pyReprEntries l) ++ "\x7d"

def pyReprList : List Val → List String
  | [] => []
  | v :: vs => pyRepr v :: pyReprList vs

def pyReprEntries : List (String × Val) → List String
  | [] => []
  | kv :: vs => ("\x27" ++ kv.1 ++ "\x27: " ++ pyRepr kv.2) :: pyReprEntries vs

end

/-- Python `str()`, as used by f-string interpolation: identity on strings,
`repr` otherwise. -/
def pyStr : Val → String
  | .vstr s => s
  | v => pyRepr v

/-- `str(type(v))`. -/
def pyType : Val → String
  | .vnone => "<class \x27NoneType\x27>"
  | .vbool _ => "<class \x27bool\x27>"
  | .vint _ => "<class \x27int\x27>"
  | .vstr _ => "<class \x27str\x27>"
  | .vfloat => "<class \x27float\x27>"
  | .vlist _ => "<class \x27list\x27>"
  | .vdict _ => "<class \x27dict\x27>"

/-- Local (pre-network) Python exceptions raised by the client. -/
inductive PyErr where
  | typeError : String → PyErr
  | valueError : String → PyErr
  | indexError : PyErr
  | keyError : String → PyErr
  | ioError : PyErr
  deriving Repr, DecidableEq

/-- Python `int()` on the value kinds the library feeds it.  (Whitespace and
leading `+` tolerance of Python's parser are not reproduced; no claim
exercises them.) -/
def pyInt : Val → Except PyErr Int
  | .vint n => .ok n
  | .vbool b => .ok (if b then 1 else 0)
  | .vstr s =>
    match s.toInt? with
    | some n => .ok n
    | none => .error (.valueError ("invalid literal for int() with base 10: " ++ pyRepr (.vstr s)))
  | v => .error (.typeError ("int() argument must be a string or a real number, not " ++ pyType v))

/-- Python indexing `v[i]` for a non-negative index: a one-character string
for strings, the element for lists, `IndexError` out of range. -/
def pyIndex : Val → Nat → Except PyErr Val
  | .vstr s, i =>
    match s.data[i]? with
    | some c => .ok (.vstr (String.mk [c]))
    | none => .error .indexError
  | .vlist l, i =>
    match l[i]? with
    | some v => .ok v
    | none => .error .indexError
  | v, _ => .error (.typeError ("\x27" ++ pyType v ++ "\x27 object is not subscriptable"))

/-- Python `len()`. -/
def pyLen : Val → Except PyErr Nat
  | .vstr s => .ok s.length
  | .vlist l => .ok l.length
  | .vdict l => .ok l.length
  | v => .error (.typeError ("object of type " ++ pyType v ++ " has no len()"))

/-- Python iteration `for x in v`, for the value kinds the library iterates. -/
def pyIter : Val → Except PyErr (List Val)
  | .vstr s => .ok (s.data.map (fun c => .vstr (String.mk [c])))
  | .vlist l => .ok l
  | .vdict l => .ok (l.map (fun kv => .vstr kv.1))
  | v => .error (.typeError ("\x27" ++ pyType v ++ "\x27 object is not iterable"))

/-- Python dict subscript `d[k]` with a string key. -/
def pySubscript (v : Val) (k : String) : Except PyErr Val :=
  match v with
  | .vdict l =>
    match l.lookup k with
    | some x => .ok x
    | none => .error (.keyError k)
  | _ => .error (.typeError ("\x27" ++ pyType v ++ "\x27 object is not subscriptable"))

/-! ## Routes (`crafty_client/static/routes.py`) -/

def APIRoutes.BASE_URL : String := "/api/v2"

def APIRoutes.ROLES_URL : String := APIRoutes.BASE_URL ++ "/roles"

def APIRoutes.SERVERS_URL : String := APIRoutes.BASE_URL ++ "/servers"

def APIRoutes.USERS_URL : String := APIRoutes.BASE_URL ++ "/users"

def APIRoutes.AUTH_URL : String := APIRoutes.BASE_URL ++ "/auth"

def APIRoutes.LOGIN_URL : String := APIRoutes.AUTH_URL ++ "/login"

def APIRoutes.SCHEMA_URL : String := APIRoutes.BASE_URL ++ "/jsonschema"

/-! ## The request primitive and client state -/

/-- The data a resource method hands to `_make_request`: HTTP method, the
API route string (before `urljoin` against the base URL), and the optional
JSON body.  A method whose embedding returns `.ok r` reaches
`_make_request`, i.e. issues a network request; `.error e` means the local
exception `e` is raised with no network call made. -/
structure Request where
  method : String
  route : String
  body : Option Val := none

/-- The mutable state of a `CraftyWeb` instance: configuration plus the
shared `self.headers` mapping (`None` after `get_token` nulls it). -/
structure ClientState where
  url : String
  token : String
  verify_ssl : Bool
  headers : Option (List (String × String))

/-- `CraftyWeb.__init__` (craftyweb.py:10). -/
def CraftyWeb.init (url api_token : String) (verify_ssl : Bool := false) : ClientState :=
  { url := url, token := api_token, verify_ssl := verify_ssl,
    headers := some [("Authorization", "Bearer " ++ api_token),
                     ("Content-Type", "application/json")] }

/-- The HTTP exchange `_make_request` performs (craftyweb.py:40): it passes
the instance's current `self.headers` and TLS flag to `requests.request`.
(The `urljoin` endpoint resolution is not modelled; no claim inspects the
joined URL text, only the route, headers and body.) -/
structure HttpCall where
  method : String
  route : String
  verify : Bool
  headers : Option (List (String × String))
  body : Option Val

/-- The network call `_make_request` issues for a given client state. -/
def make_request_call (c : ClientState) (r : Request) : HttpCall :=
  { method := r.method, route := r.route, verify := c.verify_ssl,
    headers := c.headers, body := r.body }

/-! ## Response envelope handling (`_check_errors`, `_make_request`) -/

/-- Modelled from the spec: the typed failures live in
`crafty_client/static/exceptions.py`, which is not part of the sources at
hand (only its wildcard import is).  Following the spec's error table, each
failure kind carries the detail value the raise site passes it:
invalid-credentials, server-not-running, missing-parameters (fixed message),
server-already-running, access-denied (with optional detail), not-allowed,
server-not-found. -/
inductive ApiFailure where
  | incorrectCredentials : ApiFailure
  | serverNotRunning : ApiFailure
  | missingParameters : String → ApiFailure
  | serverAlreadyRunning : ApiFailure
  | accessDenied : Option Val → ApiFailure
  | notAllowed : Val → ApiFailure
  | serverNotFound : Val → ApiFailure

/-- The four-field response envelope `_make_request` builds from the parsed
JSON body (each field defaults to `None` when missing). -/
structure Envelope where
  status : Val
  data : Val
  error : Val
  info : Val

/-- `_check_errors` (craftyweb.py:18): case-sensitive dispatch on the
envelope's `error` field; `some f` means the typed failure `f` is raised,
`none` means the fall-through `pass`. -/
def check_errors (r : Envelope) : Option ApiFailure :=
  if strEq r.error "INCORRECT_CREDENTIALS" then some .incorrectCredentials
  else if strEq r.error "SER_NOT_RUNNING" then some .serverNotRunning
  else if strEq r.error "NO_COMMAND" then
    some (.missingParameters "Your request is missing essential parameters or they are invalid")
  else if strEq r.error "SER_RUNNING" then some .serverAlreadyRunning
  else if strEq r.error "NOT_AUTHORIZED" then some (.accessDenied none)
  else if strEq r.error "ACCESS_DENIED" then some (.accessDenied (some r.info))
  else if strEq r.error "NOT_ALLOWED" then some (.notAllowed r.info)
  else if strEq r.error "NOT_FOUND" then some (.serverNotFound r.info)
  else none

/-- `response_dict.get(k, None)`. -/
def dictGet (d : List (String × Val)) (k : String) : Val :=
  (d.lookup k).getD .vnone

/-- The envelope `_make_request` assembles (craftyweb.py:49-52), including
the `info or error_data` truthiness fallback. -/
def parse_envelope (resp : List (String × Val)) : Envelope :=
  { status := dictGet resp "status"
    data := dictGet resp "data"
    error := dictGet resp "error"
    info := if pyTruthy (dictGet resp "info") then dictGet resp "info"
            else dictGet resp "error_data" }

/-- The tail of `_make_request` (craftyweb.py:54-55): run `_check_errors` on
the parsed envelope, raising the typed failure it selects, otherwise return
the envelope to the caller. -/
def raise_or_return (e : Envelope) : Except ApiFailure Envelope :=
  match check_errors e with
  | some f => .error f
  | none => .ok e

/-- `_make_request`'s whole response path on a parsed JSON body. -/
def make_request_response (resp : List (String × Val)) : Except ApiFailure Envelope :=
  raise_or_return (parse_envelope resp)

/-! ## Resource operations

Each operation returns the `Request` it hands to `_make_request`, or the
local Python exception raised before any network call. -/

/-- The `TypeError` every id-validating operation raises, e.g.
`Expected "server_id" to be of type int or str, but got ... instead`. -/
def idTypeErr (pname : String) (v : Val) : PyErr :=
  .typeError ("Expected \"" ++ pname ++ "\" to be of type int or str, but got "
    ++ pyType v ++ " instead")

/-- `get_token` (craftyweb.py:57-87), up to the network call: its first
statement nulls `self.headers`; then the optional password file is read
(`fs` models the file system: content by path, `none` for an unreadable
path); then the missing-password check; then the login request is built.
The returned state is the instance state after the call. -/
def get_token (fs : String → Option Val) (c : ClientState) (username : Val)
    (password : Val := .vnone) (password_path : Val := .vnone) :
    Except PyErr Request × ClientState :=
  let c' : ClientState := { c with headers := none }
  let result : Except PyErr Request := do
    let pw ←
      if pyTruthy password_path then
        match password_path with
        | .vstr p =>
          match fs p with
          | some content => pure content
          | none => throw .ioError
        | _ => throw (.typeError ("expected str, bytes or os.PathLike object, not "
                                    ++ pyType password_path))
      else pure password
    if isNone pw && isNone password_path then
      throw (.valueError "Must either have a password or path to the file where a password is saved")
    pure { method := "POST", route := APIRoutes.LOGIN_URL,
           body := some (.vdict [("username", username), ("password", pw)]) }
  (result, c')

/-- `create_role` (craftyweb.py:132-163): a bare int-or-str id is wrapped in
a one-element list; each id goes through `int()`, the permission string
through `str()`. -/
def create_role (name server_ids permissions : Val) : Except PyErr Request := do
  let sids ←
    if isIntOrStr server_ids then pure [server_ids]
    else match server_ids with
      | .vlist l => pure l
      | _ => throw (.typeError ("\"server_ids\" must be of type list[int], instead received type "
                                  ++ pyType server_ids))
  let servers ← sids.mapM (fun sid => do
    let n ← pyInt sid
    pure (Val.vdict [("server_id", Val.vint n), ("permissions", Val.vstr (pyStr permissions))]))
  pure { method := "POST", route := APIRoutes.ROLES_URL,
         body := some (.vdict [("name", name), ("servers", .vlist servers)]) }

/-- `get_role` (craftyweb.py:165-179). -/
def get_role (role_id : Val) : Except PyErr Request :=
  if !isIntOrStr role_id then .error (idTypeErr "role_id" role_id)
  else .ok { method := "GET", route := APIRoutes.ROLES_URL ++ "/" ++ pyStr role_id }

/-- The message of the source's triple-quoted unequal-length `ValueError`
(craftyweb.py:280-283); the literal's internal line breaks and indentation
are not reproduced. -/
def unequalLenMsg : String :=
  "If \x27server_ids\x27 and \x27permissions\x27 are both provided as lists, they must have the same length."

/-- The body-construction loop of `modify_role` (craftyweb.py:290-293):
for each index `i`, `server_ids[i]` is read, then `permissions[i]`,
propagating the first `IndexError`. -/
def build_servers (sids perms : Val) : List Nat → Except PyErr (List Val)
  | [] => .ok []
  | i :: rest => do
    let sid ← pyIndex sids i
    let perm ← pyIndex perms i
    let tail ← build_servers sids perms rest
    pure (Val.vdict [("id", sid), ("permissions", perm)] :: tail)

/-- `modify_role` (craftyweb.py:234-295): id and name type checks, the
both-or-neither rule for `server_ids`/`permissions`, normalization (int id
wrapped to a list; a single permission string replicated per server; an int
permission turned into one decimal string; equal-length check for two
lists), then the PATCH body build. -/
def modify_role (role_id : Val) (name : Val := .vnone) (server_ids : Val := .vnone)
    (permissions : Val := .vnone) : Except PyErr Request := do
  if !isIntOrStr role_id then
    throw (idTypeErr "role_id" role_id)
  if !isStr name && !isNone name then
    throw (.typeError ("\x27name\x27 must be of type string, instead was of type " ++ pyType name))
  let np ←
    if (isNone server_ids && !isNone permissions) || (!isNone server_ids && isNone permissions) then
      throw (.valueError "Both \x27server_ids\x27 and \x27permissions\x27 must be either provided or None.")
    else if !isNone server_ids && !isNone permissions then do
      let sids ←
        if isInt server_ids then pure (Val.vlist [server_ids])
        else if !isList server_ids then
          throw (.typeError ("\x27server_ids\x27 must either be of type int or a list of int instead was of type "
                               ++ pyType server_ids))
        else pure server_ids
      let n ← pyLen sids
      let perms ←
        if isStr permissions then pure (Val.vlist (List.replicate n permissions))
        else if isInt permissions then pure (Val.vstr (pyStr permissions))
        else if !isStr permissions && !isList permissions then
          throw (.typeError ("\x27permissions\x27 must either be of type str or a list of str instead was of type "
                               ++ pyType permissions))
        else do
          let m ← pyLen permissions
          if m != n then throw (.valueError unequalLenMsg)
          pure permissions
      pure (sids, perms)
    else pure (server_ids, permissions)
  let base : List (String × Val) := if !isNone name then [("name", name)] else []
  if isNone np.1 then
    pure { method := "PATCH", route := APIRoutes.ROLES_URL ++ "/" ++ pyStr role_id,
           body := some (.vdict base) }
  else do
    let n ← pyLen np.1
    let servers ← build_servers np.1 np.2 (List.range n)
    pure { method := "PATCH", route := APIRoutes.ROLES_URL ++ "/" ++ pyStr role_id,
           body := some (.vdict (base ++ [("servers", .vlist servers)])) }

/-- `get_server` (craftyweb.py:345-360). -/
def get_server (server_id : Val) : Except PyErr Request :=
  if !isIntOrStr server_id then .error (idTypeErr "server_id" server_id)
  else .ok { method := "GET", route := APIRoutes.SERVERS_URL ++ "/" ++ pyStr server_id }

/-- The allow-list of `modify_server` (craftyweb.py:414-416). -/
def valid_keys : List String :=
  ["server_name", "path", "backup_path", "executable", "log_path", "execution_command",
   "auto_start", "auto_start_delay", "crash_detection", "stop_command", "executable_update_url",
   "server_ip", "server_port", "logs_delete_after", "type", "show_status", "shutdown_timeout"]

/-- `modify_server` (craftyweb.py:384-418): the PATCH body is the dict
comprehension over `valid_keys`, keeping exactly the allow-listed keys
present in `data`. -/
def modify_server (server_id : Val) (data : List (String × Val)) : Except PyErr Request :=
  if !isIntOrStr server_id then .error (idTypeErr "server_id" server_id)
  else .ok { method := "PATCH", route := APIRoutes.SERVERS_URL ++ "/" ++ pyStr server_id,
             body := some (.vdict (valid_keys.filterMap
               (fun k => (data.lookup k).map (fun v => (k, v))))) }

/-- The action set of `send_server_action` (craftyweb.py:435-436). -/
def valid_actions : List String :=
  ["clone_server", "start_server", "stop_server", "restart_server", "kill_server",
   "backup_server", "update_executable"]

/-- `send_server_action` (craftyweb.py:420-443): the action is checked
against `valid_actions` first (by Python `in`, i.e. `==` per element), then
the id type, then the POST is issued. -/
def send_server_action (server_id action : Val) : Except PyErr Request :=
  if !valid_actions.any (fun a => strEq action a) then
    .error (.valueError ("Invalid action \"" ++ pyStr action ++ "\". Valid actions are: "
      ++ String.intercalate ", " valid_actions))
  else if !isIntOrStr server_id then .error (idTypeErr "server_id" server_id)
  else .ok { method := "POST",
             route := APIRoutes.SERVERS_URL ++ "/" ++ pyStr server_id ++ "/action/" ++ pyStr action }

/-- `remove_schedule` (craftyweb.py:564-584): both ids are type checked, in
order, before the DELETE. -/
def remove_schedule (server_id task_id : Val) : Except PyErr Request :=
  if !isIntOrStr server_id then .error (idTypeErr "server_id" server_id)
  else if !isIntOrStr task_id then .error (idTypeErr "task_id" task_id)
  else .ok { method := "DELETE",
             route := APIRoutes.SERVERS_URL ++ "/" ++ pyStr server_id ++ "/tasks/" ++ pyStr task_id }

/-- The list comprehension `[str(role[\x27role_id\x27]) for role in roles_list]`
of `create_user` (craftyweb.py:627): element order preserved, first
subscript failure propagated. -/
def role_id_strs : List Val → Except PyErr (List String)
  | [] => .ok []
  | r :: rest => do
    let rid ← pySubscript r "role_id"
    let tail ← role_id_strs rest
    pure (pyStr rid :: tail)

/-- `create_user` (craftyweb.py:599-647).  `fetched_roles` stands for the
value `self.get_all_roles()` returns (the `data` field of the live role
list); it is consulted only when `roles` is not `None`, as in the source. -/
def create_user (fetched_roles : Val) (username password : Val) (email : Val := .vnone)
    (enabled : Val := .vbool true) (hints : Val := .vbool true) (lang : Val := .vstr "en_US")
    (roles : Val := .vnone) (superuser : Val := .vbool false) : Except PyErr Request := do
  let rolesVal ←
    if !isNone roles then do
      let rlist ← pyIter (if pyTruthy fetched_roles then fetched_roles else .vlist [])
      let valid_roles ← role_id_strs rlist
      let rs ← pyIter (if pyTruthy roles then roles else .vlist [])
      let roles2 := rs.map pyStr
      let invalid_roles := roles2.filter (fun r => !valid_roles.contains r)
      if !invalid_roles.isEmpty then
        throw (.valueError ("Invalid role(s): " ++ String.intercalate ", " invalid_roles
          ++ ". Valid role(s): " ++ String.intercalate ", " valid_roles ++ "."))
      pure (Val.vlist (roles2.map Val.vstr))
    else pure roles
  let entries : List (String × Val) :=
    [("username", username), ("password", password), ("email", email), ("enabled", enabled),
     ("hints", hints), ("lang", lang), ("roles", rolesVal), ("superuser", superuser)]
  pure { method := "POST", route := APIRoutes.USERS_URL,
         body := some (.vdict (entries.filter (fun kv => !isNone kv.2))) }

/-- `get_user` (craftyweb.py:649-663). -/
def get_user (user_id : Val) : Except PyErr Request :=
  if !isIntOrStr user_id then .error (idTypeErr "user_id" user_id)
  else .ok { method := "GET", route := APIRoutes.USERS_URL ++ "/" ++ pyStr user_id }

/-- `get_user_public_data` (craftyweb.py:798-809).  Unlike every other
id-accepting operation of the class, this one performs no type check on
`user_id` before building the URL and issuing the request. -/
def get_user_public_data (user_id : Val) : Except PyErr Request :=
  .ok { method := "GET", route := APIRoutes.USERS_URL ++ "/" ++ pyStr user_id ++ "/public" }

/-! ## Helper lemmas -/

theorem isNone_eq_false_of_ne : ∀ {v : Val}, v ≠ .vnone → isNone v = false
  | .vnone, h => absurd rfl h
  | .vbool _, _ => rfl
  | .vint _, _ => rfl
  | .vstr _, _ => rfl
  | .vfloat, _ => rfl
  | .vlist _, _ => rfl
  | .vdict _, _ => rfl

theorem isStr_exists {v : Val} (h : isStr v = true) : ∃ s, v = .vstr s := by
  cases v <;> first | exact ⟨_, rfl⟩ | simp [isStr] at h

@[simp] theorem except_bind_ok {ε α β : Type} (a : α) (f : α → Except ε β) :
    (Except.ok a : Except ε α) >>= f = f a := rfl

@[simp] theorem except_bind_error {ε α β : Type} (e : ε) (f : α → Except ε β) :
    (Except.error e : Except ε α) >>= f = Except.error e := rfl

@[simp] theorem except_pure_eq {ε α : Type} (a : α) : (pure a : Except ε α) = Except.ok a := rfl

@[simp] theorem except_throw_eq {ε α : Type} (e : ε) : (throw e : Except ε α) = Except.error e := rfl

/-! ## Claims -/

/-- C1: the claim says every id-accepting operation rejects a non-int,
non-str id with a `TypeError` before any network call, "including
get_user_public_data".  The code violates this for `get_user_public_data`
alone: called with `None` it builds the URL and issues the GET request,
while its siblings (here `get_server`, `remove_schedule`, `get_user`) raise
the type-mismatch error with no request made. -/
theorem get_user_public_data_skips_id_validation :
    get_user_public_data .vnone
      = .ok { method := "GET", route := "/api/v2/users/None/public" }
  ∧ get_server .vnone = .error (idTypeErr "server_id" .vnone)
  ∧ remove_schedule (.vint 1) .vnone = .error (idTypeErr "task_id" .vnone)
  ∧ get_user .vnone = .error (idTypeErr "user_id" .vnone) :=
  ⟨rfl, rfl, rfl, rfl⟩

/-- C8: `create_role` with a bare int-or-str server id builds exactly the
same request (method, URL and JSON body) as with the one-element list. -/
theorem create_role_single_id_eq_singleton_list (name permissions v : Val)
    (h : isIntOrStr v = true) :
    create_role name v permissions = create_role name (.vlist [v]) permissions := by
  cases v <;> simp_all [isIntOrStr] <;> rfl

/-- Witness for C8 at a concrete input. -/
theorem create_role_single_id_eq_singleton_list_witness :
    create_role (.vstr "r") (.vint 3) (.vstr "10000000")
      = create_role (.vstr "r") (.vlist [.vint 3]) (.vstr "10000000") :=
  create_role_single_id_eq_singleton_list (.vstr "r") (.vstr "10000000") (.vint 3) rfl

/-- C9: `get_token` unconditionally sets `self.headers = None` as its first
statement and never restores it, so after any `get_token` call — whatever
its arguments and outcome — the instance's headers are `None` and every
subsequent `_make_request` through the same instance carries no
`Authorization` or `Content-Type` header; a fresh instance carries both. -/
theorem get_token_nulls_headers (fs : String → Option Val) (c : ClientState)
    (username password password_path : Val) (r : Request) (u t : String) (v : Bool) :
    ((get_token fs c username password password_path).2.headers = none)
  ∧ ((make_request_call (get_token fs c username password password_path).2 r).headers = none)
  ∧ ((CraftyWeb.init u t v).headers
      = some [("Authorization", "Bearer " ++ t), ("Content-Type", "application/json")]) :=
  ⟨rfl, rfl, rfl⟩

/-- A concrete file system holding one password file, for witnesses. -/
def fs_example : String → Option Val :=
  fun p => if p = "pw.txt" then some (.vstr "file-secret") else none

/-- C2 counterexample: with both a literal password and a password file
supplied, `get_token` raises no argument error — it reads the file, lets the
file content override the literal password, and issues the login request.
The claimed exactly-one rule is not enforced. -/
theorem get_token_both_supplied_reads_file :
    (get_token fs_example (CraftyWeb.init "http://host" "tok" false)
        (.vstr "alice") (.vstr "literal-pw") (.vstr "pw.txt")).1
      = .ok { method := "POST", route := "/api/v2/auth/login",
              body := some (.vdict [("username", .vstr "alice"),
                                    ("password", .vstr "file-secret")]) } := rfl

/-- C2 amended: when both `password` and `password_path` are omitted,
`get_token` raises a `ValueError` before any network call; when both are
supplied, no argument error is raised — the password file is read and its
content is sent as the password (the file source is preferred). -/
theorem get_token_password_rules (fs : String → Option Val) (c : ClientState) (username : Val) :
    ((get_token fs c username .vnone .vnone).1
        = .error (.valueError "Must either have a password or path to the file where a password is saved"))
  ∧ (∀ (password : Val) (p : String) (content : Val),
        p ≠ "" → fs p = some content →
        (get_token fs c username password (.vstr p)).1
          = .ok { method := "POST", route := APIRoutes.LOGIN_URL,
                  body := some (.vdict [("username", username), ("password", content)]) }) := by
  constructor
  · rfl
  · intro password p content hp hfs
    simp [get_token, pyTruthy, hp, hfs, isNone]

/-- Witness for C2's amended theorem at concrete inputs. -/
theorem get_token_password_rules_witness :
    ((get_token fs_example (CraftyWeb.init "h" "t" false) (.vstr "u") .vnone .vnone).1
        = .error (.valueError "Must either have a password or path to the file where a password is saved"))
  ∧ ((get_token fs_example (CraftyWeb.init "h" "t" false) (.vstr "u") (.vstr "lp") (.vstr "pw.txt")).1
        = .ok { method := "POST", route := APIRoutes.LOGIN_URL,
                body := some (.vdict [("username", .vstr "u"), ("password", .vstr "file-secret")]) }) :=
  ⟨(get_token_password_rules fs_example (CraftyWeb.init "h" "t" false) (.vstr "u")).1,
   (get_token_password_rules fs_example (CraftyWeb.init "h" "t" false) (.vstr "u")).2
     (.vstr "lp") "pw.txt" (.vstr "file-secret") (by decide) rfl⟩

theorem strEq_iff (v : Val) (s : String) : strEq v s = true ↔ v = .vstr s := by
  cases v <;> simp [strEq]

/-- C3: on every parsed response envelope the request primitive raises
exactly the typed failure the case-sensitive error table selects —
INCORRECT_CREDENTIALS, SER_NOT_RUNNING, NO_COMMAND, SER_RUNNING,
NOT_AUTHORIZED, ACCESS_DENIED (with detail), NOT_ALLOWED, and NOT_FOUND
carrying the `info` field as detail — and for any unrecognized or absent
error code raises nothing and returns the envelope to the caller. -/
theorem make_request_error_table (e : Envelope) :
    (e.error = .vstr "INCORRECT_CREDENTIALS" → raise_or_return e = .error .incorrectCredentials)
  ∧ (e.error = .vstr "SER_NOT_RUNNING" → raise_or_return e = .error .serverNotRunning)
  ∧ (e.error = .vstr "NO_COMMAND" → raise_or_return e
        = .error (.missingParameters "Your request is missing essential parameters or they are invalid"))
  ∧ (e.error = .vstr "SER_RUNNING" → raise_or_return e = .error .serverAlreadyRunning)
  ∧ (e.error = .vstr "NOT_AUTHORIZED" → raise_or_return e = .error (.accessDenied none))
  ∧ (e.error = .vstr "ACCESS_DENIED" → raise_or_return e = .error (.accessDenied (some e.info)))
  ∧ (e.error = .vstr "NOT_ALLOWED" → raise_or_return e = .error (.notAllowed e.info))
  ∧ (e.error = .vstr "NOT_FOUND" → raise_or_return e = .error (.serverNotFound e.info))
  ∧ ((∀ c ∈ ["INCORRECT_CREDENTIALS", "SER_NOT_RUNNING", "NO_COMMAND", "SER_RUNNING",
              "NOT_AUTHORIZED", "ACCESS_DENIED", "NOT_ALLOWED", "NOT_FOUND"],
        e.error ≠ .vstr c) → raise_or_return e = .ok e) := by
  refine ⟨?_, ?_, ?_, ?_, ?_, ?_, ?_, ?_, ?_⟩
  all_goals intro h
  · simp [raise_or_return, check_errors, strEq_iff, h]
  · simp [raise_or_return, check_errors, strEq_iff, h]
  · simp [raise_or_return, check_errors, strEq_iff, h]
  · simp [raise_or_return, check_errors, strEq_iff, h]
  · simp [raise_or_return, check_errors, strEq_iff, h]
  · simp [raise_or_return, check_errors, strEq_iff, h]
  · simp [raise_or_return, check_errors, strEq_iff, h]
  · simp [raise_or_return, check_errors, strEq_iff, h]
  · have h1 := h "INCORRECT_CREDENTIALS" (by simp)
    have h2 := h "SER_NOT_RUNNING" (by simp)
    have h3 := h "NO_COMMAND" (by simp)
    have h4 := h "SER_RUNNING" (by simp)
    have h5 := h "NOT_AUTHORIZED" (by simp)
    have h6 := h "ACCESS_DENIED" (by simp)
    have h7 := h "NOT_ALLOWED" (by simp)
    have h8 := h "NOT_FOUND" (by simp)
    simp [raise_or_return, check_errors, strEq_iff, h1, h2, h3, h4, h5, h6, h7, h8]

/-- Witness for C3 at a concrete envelope (the NOT_FOUND row). -/
theorem make_request_error_table_witness :
    raise_or_return { status := .vstr "error", data := .vnone,
                      error := .vstr "NOT_FOUND", info := .vstr "no server" }
      = .error (.serverNotFound (.vstr "no server")) :=
  (make_request_error_table _).2.2.2.2.2.2.2.1 rfl

/-- C4: `send_server_action` rejects every action string outside the fixed
seven-element set with a `ValueError` before any network call (whatever the
server id), and for each action in the set it issues the passthrough POST
to the server's action endpoint. -/
theorem send_server_action_gate (server_id : Val) (action : String) :
    (action ∉ valid_actions →
      send_server_action server_id (.vstr action)
        = .error (.valueError ("Invalid action \"" ++ action ++ "\". Valid actions are: "
            ++ String.intercalate ", " valid_actions)))
  ∧ (action ∈ valid_actions → isIntOrStr server_id = true →
      send_server_action server_id (.vstr action)
        = .ok { method := "POST",
                route := APIRoutes.SERVERS_URL ++ "/" ++ pyStr server_id ++ "/action/" ++ action }) := by
  constructor
  · intro h
    have hany : valid_actions.any (fun a => strEq (.vstr action) a) = false := by
      simp only [List.any_eq_false]
      intro a ha
      simp only [strEq]
      intro hb
      have hab : action = a := by simpa using hb
      subst hab
      exact h ha
    simp [send_server_action, hany, pyStr]
  · intro ha hid
    have hany : valid_actions.any (fun a => strEq (.vstr action) a) = true := by
      simp only [List.any_eq_true]
      exact ⟨action, ha, by simp [strEq]⟩
    simp [send_server_action, hany, hid, pyStr]

/-- Witness for C4: one action outside the set, one inside. -/
theorem send_server_action_gate_witness :
    send_server_action (.vint 1) (.vstr "foo")
      = .error (.valueError ("Invalid action \"foo\". Valid actions are: "
          ++ String.intercalate ", " valid_actions))
  ∧ send_server_action (.vint 1) (.vstr "start_server")
      = .ok { method := "POST",
              route := APIRoutes.SERVERS_URL ++ "/" ++ pyStr (.vint 1) ++ "/action/" ++ "start_server" } :=
  ⟨(send_server_action_gate (.vint 1) "foo").1 (by decide),
   (send_server_action_gate (.vint 1) "start_server").2 (by decide) rfl⟩

theorem lookup_filterMap_lookup (ks : List String) (data : List (String × Val)) (k : String) :
    (ks.filterMap (fun k0 => (data.lookup k0).map (fun v => (k0, v)))).lookup k
      = if k ∈ ks then data.lookup k else none := by
  induction ks with
  | nil => simp
  | cons a t ih =>
    by_cases hk : k = a
    · subst hk
      cases hl : data.lookup k with
      | none => simp [List.filterMap_cons, hl, ih]
      | some v => simp [List.filterMap_cons, hl, List.lookup]
    · cases hl : data.lookup a with
      | none => simp [List.filterMap_cons, hl, ih, hk]
      | some v =>
        have hba : (k == a) = false := beq_eq_false_iff_ne.mpr hk
        simp [List.filterMap_cons, hl, ih, hk, List.lookup, hba]

/-- C7: `modify_server` builds its PATCH body by keeping exactly the keys of
the fixed allow-list that occur in the input dict, with their input values;
every key outside the allow-list is dropped from the body, and no error is
raised on account of such keys. -/
theorem modify_server_allowlist (server_id : Val) (h : isIntOrStr server_id = true)
    (data : List (String × Val)) :
    ∃ payload : List (String × Val),
      modify_server server_id data
        = .ok { method := "PATCH", route := APIRoutes.SERVERS_URL ++ "/" ++ pyStr server_id,
                body := some (.vdict payload) }
      ∧ ∀ k : String, payload.lookup k = if k ∈ valid_keys then data.lookup k else none := by
  refine ⟨valid_keys.filterMap (fun k0 => (data.lookup k0).map (fun v => (k0, v))), ?_, ?_⟩
  · simp [modify_server, h]
  · intro k
    exact lookup_filterMap_lookup valid_keys data k

/-- Witness for C7: an allow-listed key is kept, a foreign key is dropped,
and the call succeeds. -/
theorem modify_server_allowlist_witness :
    isIntOrStr (.vint 5) = true
  ∧ ∃ payload : List (String × Val),
      modify_server (.vint 5) [("path", .vstr "/srv"), ("bogus", .vint 1)]
        = .ok { method := "PATCH", route := APIRoutes.SERVERS_URL ++ "/" ++ pyStr (.vint 5),
                body := some (.vdict payload) }
      ∧ ∀ k : String, payload.lookup k
          = if k ∈ valid_keys
            then ([("path", .vstr "/srv"), ("bogus", .vint 1)] : List (String × Val)).lookup k
            else none :=
  ⟨rfl, modify_server_allowlist (.vint 5) rfl [("path", .vstr "/srv"), ("bogus", .vint 1)]⟩

/-- C5: `modify_role` raises the both-or-neither `ValueError` whenever
exactly one of `server_ids`/`permissions` is supplied, and the
unequal-length `ValueError` whenever both are supplied as lists of
different lengths. -/
theorem modify_role_pairing_errors (role_id name : Val)
    (hid : isIntOrStr role_id = true) (hname : isStr name = true ∨ name = .vnone) :
    (∀ server_ids : Val, server_ids ≠ .vnone →
        modify_role role_id name server_ids .vnone
          = .error (.valueError "Both \x27server_ids\x27 and \x27permissions\x27 must be either provided or None."))
  ∧ (∀ permissions : Val, permissions ≠ .vnone →
        modify_role role_id name .vnone permissions
          = .error (.valueError "Both \x27server_ids\x27 and \x27permissions\x27 must be either provided or None."))
  ∧ (∀ l1 l2 : List Val, l1.length ≠ l2.length →
        modify_role role_id name (.vlist l1) (.vlist l2)
          = .error (.valueError unequalLenMsg)) := by
  obtain ⟨s, rfl⟩ | rfl := hname.imp (fun h => isStr_exists h) id
  all_goals refine ⟨fun sids hs => ?_, fun perms hp => ?_, fun l1 l2 hlen => ?_⟩
  · simp [modify_role, hid, isNone_eq_false_of_ne hs, isNone, isStr]
  · simp [modify_role, hid, isNone_eq_false_of_ne hp, isNone, isStr]
  · simp [modify_role, hid, isNone, isStr, isInt, isList, pyLen, Ne.symm hlen]
  · simp [modify_role, hid, isNone_eq_false_of_ne hs, isNone, isStr]
  · simp [modify_role, hid, isNone_eq_false_of_ne hp, isNone, isStr]
  · simp [modify_role, hid, isNone, isStr, isInt, isList, pyLen, Ne.symm hlen]

/-- Witness for C5: each of the three error shapes at a concrete input. -/
theorem modify_role_pairing_errors_witness :
    (modify_role (.vint 2) .vnone (.vlist [.vint 1]) .vnone
        = .error (.valueError "Both \x27server_ids\x27 and \x27permissions\x27 must be either provided or None."))
  ∧ (modify_role (.vint 2) .vnone .vnone (.vstr "10000000")
        = .error (.valueError "Both \x27server_ids\x27 and \x27permissions\x27 must be either provided or None."))
  ∧ (modify_role (.vint 2) .vnone (.vlist [.vint 1, .vint 2]) (.vlist [.vstr "10000000"])
        = .error (.valueError unequalLenMsg)) :=
  ⟨(modify_role_pairing_errors (.vint 2) .vnone rfl (Or.inr rfl)).1 (.vlist [.vint 1]) (by simp),
   (modify_role_pairing_errors (.vint 2) .vnone rfl (Or.inr rfl)).2.1 (.vstr "10000000") (by simp),
   (modify_role_pairing_errors (.vint 2) .vnone rfl (Or.inr rfl)).2.2
     [.vint 1, .vint 2] [.vstr "10000000"] (by decide)⟩

theorem build_servers_all_ok (l : List Val) (s : String) :
    ∀ idxs : List Nat, (∀ i ∈ idxs, i < l.length ∧ i < s.data.length) →
      build_servers (.vlist l) (.vstr s) idxs
        = .ok (idxs.map (fun i =>
            Val.vdict [("id", l.getD i .vnone),
                       ("permissions", .vstr (String.mk [s.data.getD i ' ']))]))
  | [], _ => rfl
  | i :: rest, h => by
    obtain ⟨hl, hs⟩ := h i (List.mem_cons_self i rest)
    have ih := build_servers_all_ok l s rest (fun j hj => h j (List.mem_cons_of_mem i hj))
    simp [build_servers, pyIndex, List.getElem?_eq_getElem hl, List.getElem?_eq_getElem hs,
          ih, List.getD]

theorem build_servers_hits_index_error (l : List Val) (s : String) :
    ∀ idxs : List Nat, (∀ i ∈ idxs, i < l.length) → (∃ j ∈ idxs, s.data.length ≤ j) →
      build_servers (.vlist l) (.vstr s) idxs = .error .indexError
  | [], _, h => absurd h (by simp)
  | i :: rest, hl, hj => by
    have hli := hl i (List.mem_cons_self i rest)
    by_cases hs : i < s.data.length
    · obtain ⟨j, hjm, hjge⟩ := hj
      have hjrest : ∃ j ∈ rest, s.data.length ≤ j := by
        rcases List.mem_cons.mp hjm with rfl | hm
        · exact absurd hjge (not_le.mpr hs)
        · exact ⟨j, hm, hjge⟩
      have ih := build_servers_hits_index_error l s rest
        (fun k hk => hl k (List.mem_cons_of_mem i hk)) hjrest
      simp [build_servers, pyIndex, List.getElem?_eq_getElem hli, List.getElem?_eq_getElem hs, ih]
    · have hnone : s.data[i]? = none := List.getElem?_eq_none (by omega)
      simp [build_servers, pyIndex, List.getElem?_eq_getElem hli, hnone]

/-- C10: `modify_role` with an int `permissions` and a list of `n` server
ids converts the int to its decimal string without replicating it, so the
PATCH body gives the i-th server the one-character string at position i of
that decimal string; and when `n` exceeds the decimal string's length the
body construction fails with an `IndexError`. -/
theorem modify_role_int_permissions (role_id : Val) (hid : isIntOrStr role_id = true)
    (l : List Val) (p : Int) :
    (l.length ≤ (toString p).length →
      modify_role role_id .vnone (.vlist l) (.vint p)
        = .ok { method := "PATCH", route := APIRoutes.ROLES_URL ++ "/" ++ pyStr role_id,
                body := some (.vdict [("servers",
                  .vlist ((List.range l.length).map (fun i =>
                    Val.vdict [("id", l.getD i .vnone),
                               ("permissions", .vstr (String.mk [(toString p).data.getD i ' ']))])))]) })
  ∧ ((toString p).length < l.length →
      modify_role role_id .vnone (.vlist l) (.vint p) = .error .indexError) := by
  have hdl : (toString p).length = (toString p).data.length := rfl
  constructor
  · intro h
    have hb := build_servers_all_ok l (toString p) (List.range l.length)
      (fun i hi => ⟨List.mem_range.mp hi, by
        have h1 := List.mem_range.mp hi
        omega⟩)
    simp [modify_role, hid, isNone, isStr, isInt, isList, pyLen, pyStr, pyRepr, hb]
  · intro h
    have hb := build_servers_hits_index_error l (toString p) (List.range l.length)
      (fun i hi => List.mem_range.mp hi)
      ⟨(toString p).length, List.mem_range.mpr (by omega), by omega⟩
    simp [modify_role, hid, isNone, isStr, isInt, isList, pyLen, pyStr, pyRepr, hb]

/-- Witness for C10: two servers against the two-digit permissions int 10
(each server gets one digit); three servers against it (IndexError). -/
theorem modify_role_int_permissions_witness :
    modify_role (.vint 7) .vnone (.vlist [.vint 1, .vint 2]) (.vint 10)
      = .ok { method := "PATCH", route := APIRoutes.ROLES_URL ++ "/" ++ pyStr (.vint 7),
              body := some (.vdict [("servers",
                .vlist ((List.range ([Val.vint 1, Val.vint 2].length)).map (fun i =>
                  Val.vdict [("id", [Val.vint 1, Val.vint 2].getD i .vnone),
                             ("permissions",
                              .vstr (String.mk [(toString (10 : Int)).data.getD i ' ']))])))]) }
  ∧ modify_role (.vint 7) .vnone (.vlist [.vint 1, .vint 2, .vint 3]) (.vint 10)
      = .error .indexError :=
  ⟨(modify_role_int_permissions (.vint 7) rfl [.vint 1, .vint 2] 10).1 (by decide),
   (modify_role_int_permissions (.vint 7) rfl [.vint 1, .vint 2, .vint 3] 10).2 (by decide)⟩

theorem role_id_strs_eval (ks : List Val) :
    role_id_strs (ks.map (fun k => Val.vdict [("role_id", k)])) = .ok (ks.map pyStr) := by
  induction ks with
  | nil => rfl
  | cons a t ih => simp [role_id_strs, pySubscript, List.lookup, ih]

theorem truthy_or_empty_list (rs : List Val) :
    (if pyTruthy (.vlist rs) then Val.vlist rs else .vlist []) = .vlist rs := by
  cases rs <;> simp [pyTruthy]

/-- C6: `create_user` with a supplied role list checks every role id
(stringified) against the live role list and raises the single aggregate
`ValueError` naming exactly the invalid ids and listing the valid ids
whenever at least one id is invalid; with all ids valid, with an empty role
list, or with `roles` absent it proceeds to the POST without error. -/
theorem create_user_role_validation (ks rs : List Val)
    (username password email enabled hints lang superuser : Val) :
    (((rs.map pyStr).filter (fun r => !((ks.map pyStr).contains r)) ≠ [] →
        create_user (.vlist (ks.map (fun k => Val.vdict [("role_id", k)])))
            username password email enabled hints lang (.vlist rs) superuser
          = .error (.valueError ("Invalid role(s): "
              ++ String.intercalate ", "
                   ((rs.map pyStr).filter (fun r => !((ks.map pyStr).contains r)))
              ++ ". Valid role(s): " ++ String.intercalate ", " (ks.map pyStr) ++ ".")))
     ∧ ((rs.map pyStr).filter (fun r => !((ks.map pyStr).contains r)) = [] →
        create_user (.vlist (ks.map (fun k => Val.vdict [("role_id", k)])))
            username password email enabled hints lang (.vlist rs) superuser
          = .ok { method := "POST", route := APIRoutes.USERS_URL,
                  body := some (.vdict (
                    ([("username", username), ("password", password), ("email", email),
                      ("enabled", enabled), ("hints", hints), ("lang", lang),
                      ("roles", Val.vlist ((rs.map pyStr).map Val.vstr)),
                      ("superuser", superuser)] : List (String × Val)).filter
                      (fun kv => !isNone kv.2))) }))
  ∧ (∀ fetched : Val,
      create_user fetched username password email enabled hints lang .vnone superuser
        = .ok { method := "POST", route := APIRoutes.USERS_URL,
                body := some (.vdict (
                  ([("username", username), ("password", password), ("email", email),
                    ("enabled", enabled), ("hints", hints), ("lang", lang),
                    ("roles", Val.vnone),
                    ("superuser", superuser)] : List (String × Val)).filter
                    (fun kv => !isNone kv.2))) }) := by
  refine ⟨⟨?_, ?_⟩, ?_⟩
  · intro hne
    have hie : ((rs.map pyStr).filter (fun r => !((ks.map pyStr).contains r))).isEmpty = false := by
      cases hx : (rs.map pyStr).filter (fun r => !((ks.map pyStr).contains r)) with
      | nil => exact absurd hx hne
      | cons a t => rfl
    simp [create_user, isNone, truthy_or_empty_list, pyIter, role_id_strs_eval, hie]
    obtain ⟨a, ha⟩ := List.exists_mem_of_ne_nil _ hne
    obtain ⟨ham, hap⟩ := List.mem_filter.mp ha
    obtain ⟨x, hx, rfl⟩ := List.mem_map.mp ham
    refine ⟨x, hx, fun y hy hEq => ?_⟩
    have hcontains : (ks.map pyStr).contains (pyStr x) = true := by
      simp
      exact ⟨y, hy, hEq⟩
    rw [hcontains] at hap
    simp at hap
  · intro heq
    simp [create_user, isNone, truthy_or_empty_list, pyIter, role_id_strs_eval, heq]
    intro x hx
    by_contra hcon
    push_neg at hcon
    have hb : (!(ks.map pyStr).contains (pyStr x)) = true := by
      simp
      exact hcon
    have hmem : pyStr x ∈ (rs.map pyStr).filter (fun r => !((ks.map pyStr).contains r)) :=
      List.mem_filter.mpr ⟨List.mem_map_of_mem _ hx, hb⟩
    rw [heq] at hmem
    exact absurd hmem (List.not_mem_nil _)
  · intro fetched
    simp [create_user, isNone]

/-- Witness for C6: role 9 is invalid against fetched roles 1 and 2; roles 1
and 2 are valid; the empty list and the absent argument also pass. -/
theorem create_user_role_validation_witness :
    (create_user (.vlist [.vdict [("role_id", .vint 1)], .vdict [("role_id", .vint 2)]])
        (.vstr "u") (.vstr "pw") .vnone (.vbool true) (.vbool true) (.vstr "en_US")
        (.vlist [.vint 1, .vint 9]) (.vbool false)
      = .error (.valueError "Invalid role(s): 9. Valid role(s): 1, 2."))
  ∧ (create_user (.vlist [.vdict [("role_id", .vint 1)], .vdict [("role_id", .vint 2)]])
        (.vstr "u") (.vstr "pw") .vnone (.vbool true) (.vbool true) (.vstr "en_US")
        (.vlist []) (.vbool false)
      = .ok { method := "POST", route := APIRoutes.USERS_URL,
              body := some (.vdict
                (([("username", .vstr "u"), ("password", .vstr "pw"), ("email", .vnone),
                   ("enabled", .vbool true), ("hints", .vbool true), ("lang", .vstr "en_US"),
                   ("roles", Val.vlist ((([] : List Val).map pyStr).map Val.vstr)),
                   ("superuser", .vbool false)] : List (String × Val)).filter
                   (fun kv => !isNone kv.2))) }) := by
  constructor
  · have h := (create_user_role_validation [.vint 1, .vint 2] [.vint 1, .vint 9]
      (.vstr "u") (.vstr "pw") .vnone (.vbool true) (.vbool true) (.vstr "en_US")
      (.vbool false)).1.1 (by decide)
    simpa using h
  · have h := (create_user_role_validation [.vint 1, .vint 2] []
      (.vstr "u") (.vstr "pw") .vnone (.vbool true) (.vbool true) (.vstr "en_US")
      (.vbool false)).1.2 (by decide)
    simpa using h
